import Mathlib

/-!
# TCPAcceptor (src/tcpsockets/TCPAcceptor.cpp)

A shallow embedding of the passive TCP acceptor.  The object is a record of its
five members.  Every method is a function from the object (and from the values
the operating system hands back during the call) to the object afterwards, the
list of externally visible effects it performed in program order, and its
return value.  The POSIX branch of each `#ifdef _WIN32` is the one embedded.
-/

namespace tcpsockets

/-! ## System constants (Linux values of the names used by the source) -/

def PF_INET : Int := 2
def SOCK_STREAM : Int := 1
def SOL_SOCKET : Int := 1
def SO_REUSEADDR : Int := 2
def SHUT_RDWR : Int := 2
def INADDR_ANY : Nat := 0

/-- The 16-bit conversion done by `htons(m_port)`: the `int` argument is
truncated to an unsigned 16-bit port number (the byte order on the wire is a
matter of representation only). -/
def htons (x : Int) : Nat := (x % 65536).toNat

/-- The three members of `struct sockaddr_in` the source touches; everything
else is zeroed by `memset`. -/
structure SockAddrIn where
  sin_family : Int
  sin_addr : Nat
  sin_port : Nat
deriving DecidableEq, Repr

/-- What a method does to the outside world, in program order. -/
inductive Effect where
  | socket (domain type protocol : Int)
  | inet_pton (af : Int) (src : String)
  | setsockopt (fd level optname optval : Int)
  | bind (fd : Int) (addr : SockAddrIn)
  | listen (fd backlog : Int)
  | shutdown (fd how : Int)
  | accept (fd : Int)
  | logError (msg : String)
deriving DecidableEq, Repr

def Effect.isListen : Effect → Bool
  | .listen _ _ => true
  | _ => false

def Effect.isShutdown : Effect → Bool
  | .shutdown _ _ => true
  | _ => false

def Effect.isAccept : Effect → Bool
  | .accept _ => true
  | _ => false

def Effect.isLogError : Effect → Bool
  | .logError _ => true
  | _ => false

/-- Modelled from the spec: the `ERROR` macro of `Log.h`, which is not among the
sources at hand.  One use surfaces one error-level log record carrying the
streamed message. -/
def ERROR (msg : String) : Effect := Effect.logError msg

/-- Modelled from the spec: the stream object of `TCPStream.h`, which is not among
the sources at hand.  The acceptor only constructs it, from the connected
descriptor and the peer address. -/
structure TCPStream where
  sd : Int
  peer : SockAddrIn
deriving DecidableEq, Repr

/-- The data members of `class TCPAcceptor`, as initialised by the constructor. -/
structure TCPAcceptor where
  m_lsd : Int
  m_port : Int
  m_address : String
  m_listening : Bool
  m_shutdown : Bool
deriving DecidableEq, Repr

/-- The constructor `TCPAcceptor::TCPAcceptor(int port, const char* address)`. -/
def TCPAcceptor.new (port : Int) (address : String) : TCPAcceptor :=
  { m_lsd := 0, m_port := port, m_address := address,
    m_listening := false, m_shutdown := false }

/-- Result of running a method: the object afterwards, the effects performed
during the call (oldest first) and the returned value. -/
structure Outcome (α : Type) where
  acc : TCPAcceptor
  effects : List Effect
  ret : α

/-- Values the operating system hands back during one call of `start`. -/
structure StartOS where
  /-- value returned by `socket` -/
  socketRet : Int
  /-- address stored by `inet_pton` into `sin_addr`; `none` when it stores
  nothing and the zeroed field stays -/
  ptonAddr : Option Nat
  /-- value returned by `bind` -/
  bindRet : Int
  /-- value returned by `listen` -/
  listenRet : Int
  /-- text produced by `SocketStrerror()` -/
  strerror : String
deriving DecidableEq, Repr

/-- Values the operating system hands back during one call of `accept`. -/
structure AcceptOS where
  /-- value returned by `::accept` -/
  sd : Int
  /-- contents of the `address` buffer after `::accept` -/
  peer : SockAddrIn
  /-- text produced by `SocketStrerror()` -/
  strerror : String
deriving DecidableEq, Repr

/-- The method `int TCPAcceptor::start()`. -/
def start (a : TCPAcceptor) (os : StartOS) : Outcome Int :=
  if a.m_listening then ⟨a, [], 0⟩
  else
    -- m_lsd = socket(PF_INET, SOCK_STREAM, 0);
    let a1 : TCPAcceptor := { a with m_lsd := os.socketRet }
    let e_socket : List Effect := [Effect.socket PF_INET SOCK_STREAM 0]
    -- memset; sin_family; sin_addr from m_address or INADDR_ANY; sin_port
    let e_pton : List Effect :=
      if a1.m_address.length > 0 then [Effect.inet_pton PF_INET a1.m_address] else []
    let address : SockAddrIn :=
      { sin_family := PF_INET,
        sin_addr := if a1.m_address.length > 0 then os.ptonAddr.getD 0 else INADDR_ANY,
        sin_port := htons a1.m_port }
    -- setsockopt(m_lsd, SOL_SOCKET, SO_REUSEADDR, &optval, sizeof optval), optval = 1
    let e_opt : List Effect := [Effect.setsockopt a1.m_lsd SOL_SOCKET SO_REUSEADDR 1]
    -- int result = bind(m_lsd, &address, sizeof(address));
    let e_bind : List Effect := [Effect.bind a1.m_lsd address]
    let before := e_socket ++ e_pton ++ e_opt ++ e_bind
    if os.bindRet ≠ 0 then
      ⟨a1, before ++ [ERROR ("bind() failed: " ++ os.strerror)], os.bindRet⟩
    else
      -- result = listen(m_lsd, 5);
      let e_listen : List Effect := [Effect.listen a1.m_lsd 5]
      if os.listenRet ≠ 0 then
        ⟨a1, before ++ e_listen ++ [ERROR ("listen() failed: " ++ os.strerror)], os.listenRet⟩
      else
        ⟨{ a1 with m_listening := true }, before ++ e_listen, os.listenRet⟩

/-- One statement of a method body: it updates the object and performs effects. -/
abbrev Stmt := TCPAcceptor → TCPAcceptor × List Effect

/-- Runs statements in program order, collecting their effects. -/
def execStmts : List Stmt → TCPAcceptor → TCPAcceptor × List Effect
  | [], a => (a, [])
  | s :: rest, a =>
    let r1 := s a
    let r2 := execStmts rest r1.1
    (r2.1, r1.2 ++ r2.2)

/-- The statement `m_shutdown = true;`. -/
def shutdown_setFlag : Stmt := fun a => ({ a with m_shutdown := true }, [])

/-- The statement `::shutdown(m_lsd, SHUT_RDWR);`. -/
def shutdown_osCall : Stmt := fun a => (a, [Effect.shutdown a.m_lsd SHUT_RDWR])

/-- Body of `void TCPAcceptor::shutdown()`, statement by statement. -/
def shutdownBody : List Stmt := [shutdown_setFlag, shutdown_osCall]

/-- The method `void TCPAcceptor::shutdown()`. -/
def shutdown (a : TCPAcceptor) : Outcome Unit :=
  let r := execStmts shutdownBody a
  ⟨r.1, r.2, ()⟩

/-- The method `std::unique_ptr<NetworkStream> TCPAcceptor::accept()`;
`none` is `nullptr`. -/
def accept (a : TCPAcceptor) (os : AcceptOS) : Outcome (Option TCPStream) :=
  if !a.m_listening then ⟨a, [], none⟩
  else
    -- int sd = ::accept(m_lsd, &address, &len);
    let e_accept : List Effect := [Effect.accept a.m_lsd]
    if os.sd < 0 then
      ⟨a, e_accept ++ (if !a.m_shutdown then [ERROR ("accept() failed: " ++ os.strerror)] else []),
        none⟩
    else
      ⟨a, e_accept, some ⟨os.sd, os.peer⟩⟩

/-! ## Sequences of calls -/

/-- One call made on the acceptor, with what the operating system answers. -/
inductive Op where
  | start (os : StartOS)
  | shutdown
  | accept (os : AcceptOS)
deriving DecidableEq, Repr

/-- Runs one call; the return value is dropped. -/
def step (a : TCPAcceptor) : Op → TCPAcceptor × List Effect
  | .start os => ((start a os).acc, (start a os).effects)
  | .shutdown => ((shutdown a).acc, (shutdown a).effects)
  | .accept os => ((accept a os).acc, (accept a os).effects)

/-- Runs calls one after the other, collecting all effects. -/
def run : List Op → TCPAcceptor → TCPAcceptor × List Effect
  | [], a => (a, [])
  | op :: rest, a =>
    let r1 := step a op
    let r2 := run rest r1.1
    (r2.1, r1.2 ++ r2.2)

/-- No call of `start` in the sequence, run from `a`, returns 0. -/
def noSuccessfulStart : List Op → TCPAcceptor → Bool
  | [], _ => true
  | op :: rest, a =>
    (match op with
      | .start os => decide ((start a os).ret ≠ 0)
      | _ => true) && noSuccessfulStart rest (step a op).1

/-! ## Concrete inputs used to exercise the results -/

/-- A freshly constructed acceptor on port 1735, any address. -/
def acc0 : TCPAcceptor := TCPAcceptor.new 1735 ""

/-- An acceptor that is listening on descriptor 3. -/
def accListening : TCPAcceptor := { acc0 with m_lsd := 3, m_listening := true }

/-- A listening acceptor on which shutdown has been invoked. -/
def accListeningDown : TCPAcceptor := { accListening with m_shutdown := true }

/-- The OS gives descriptor 3 and lets bind and listen succeed. -/
def osOk : StartOS :=
  { socketRet := 3, ptonAddr := none, bindRet := 0, listenRet := 0, strerror := "" }

/-- The OS gives descriptor 3 and bind fails with -1. -/
def osBindFails : StartOS :=
  { socketRet := 3, ptonAddr := none, bindRet := -1, listenRet := 0,
    strerror := "Address already in use" }

/-- The OS gives descriptor 3, bind succeeds and listen fails with -1. -/
def osListenFails : StartOS :=
  { socketRet := 3, ptonAddr := none, bindRet := 0, listenRet := -1,
    strerror := "Operation not supported" }

/-- The OS accept call fails with -1. -/
def osAcceptFails : AcceptOS :=
  { sd := -1, peer := ⟨0, 0, 0⟩, strerror := "Invalid argument" }

/-- The OS accept call yields descriptor 4 for peer 127.0.0.1:50000. -/
def osAcceptOk : AcceptOS :=
  { sd := 4, peer := ⟨2, 2130706433, 50000⟩, strerror := "" }

/-! ## Auxiliary facts shared by the results below -/

lemma start_effects_no_accept (a : TCPAcceptor) (os : StartOS) :
    ∀ e ∈ (start a os).effects, e.isAccept = false := by
  unfold start
  by_cases hl : 0 < a.m_address.length <;> split_ifs <;>
    simp [hl, Effect.isAccept, ERROR]

lemma start_effects_no_shutdown (a : TCPAcceptor) (os : StartOS) :
    ∀ e ∈ (start a os).effects, e.isShutdown = false := by
  unfold start
  by_cases hl : 0 < a.m_address.length <;> split_ifs <;>
    simp [hl, Effect.isShutdown, ERROR]

lemma start_listening_of_listening (a : TCPAcceptor) (os : StartOS)
    (h : a.m_listening = true) : start a os = ⟨a, [], 0⟩ := by
  simp [start, h]

lemma start_shutdown_flag (a : TCPAcceptor) (os : StartOS) :
    (start a os).acc.m_shutdown = a.m_shutdown := by
  unfold start
  split_ifs <;> rfl

lemma start_ret_zero_iff (a : TCPAcceptor) (os : StartOS) :
    (start a os).ret = 0 ↔ (start a os).acc.m_listening = true := by
  unfold start
  split_ifs with h1 h2 h3 <;> simp_all

lemma shutdown_acc (a : TCPAcceptor) :
    (shutdown a).acc = { a with m_shutdown := true } := rfl

lemma shutdown_effects (a : TCPAcceptor) :
    (shutdown a).effects = [Effect.shutdown a.m_lsd SHUT_RDWR] := rfl

lemma accept_acc (a : TCPAcceptor) (os : AcceptOS) : (accept a os).acc = a := by
  unfold accept
  split_ifs <;> rfl

lemma accept_not_listening (a : TCPAcceptor) (os : AcceptOS)
    (h : a.m_listening = false) : accept a os = ⟨a, [], none⟩ := by
  simp [accept, h]

lemma step_listening_mono (a : TCPAcceptor) (op : Op) (h : a.m_listening = true) :
    (step a op).1.m_listening = true := by
  cases op with
  | start os => simp [step, start_listening_of_listening a os h, h]
  | shutdown => simp [step, shutdown_acc, h]
  | accept os => simp [step, accept_acc, h]

lemma step_shutdown_mono (a : TCPAcceptor) (op : Op) (h : a.m_shutdown = true) :
    (step a op).1.m_shutdown = true := by
  cases op with
  | start os => simp [step, start_shutdown_flag, h]
  | shutdown => simp [step, shutdown_acc]
  | accept os => simp [step, accept_acc, h]

lemma run_listening_mono (ops : List Op) :
    ∀ a : TCPAcceptor, a.m_listening = true → (run ops a).1.m_listening = true := by
  induction ops with
  | nil => intro a h; simpa [run] using h
  | cons op rest ih => intro a h; exact ih _ (step_listening_mono a op h)

lemma run_shutdown_mono (ops : List Op) :
    ∀ a : TCPAcceptor, a.m_shutdown = true → (run ops a).1.m_shutdown = true := by
  induction ops with
  | nil => intro a h; simpa [run] using h
  | cons op rest ih => intro a h; exact ih _ (step_shutdown_mono a op h)

lemma step_stays_idle (a : TCPAcceptor) (op : Op) (h : a.m_listening = false)
    (hs : noSuccessfulStart [op] a = true) :
    (step a op).1.m_listening = false ∧ ∀ e ∈ (step a op).2, e.isAccept = false := by
  cases op with
  | start os =>
    have hr : (start a os).ret ≠ 0 := by simpa [noSuccessfulStart] using hs
    refine ⟨?_, start_effects_no_accept a os⟩
    have := (start_ret_zero_iff a os).not.mp hr
    simpa [step] using this
  | shutdown => simp [step, shutdown_acc, shutdown_effects, h, Effect.isAccept]
  | accept os => simp [step, accept_not_listening a os h, h]

lemma run_stays_idle (ops : List Op) :
    ∀ a : TCPAcceptor, a.m_listening = false → noSuccessfulStart ops a = true →
      (run ops a).1.m_listening = false ∧ ∀ e ∈ (run ops a).2, e.isAccept = false := by
  induction ops with
  | nil => intro a h _; simp [run, h]
  | cons op rest ih =>
    intro a h hs
    have hs1 : noSuccessfulStart [op] a = true := by
      simp only [noSuccessfulStart, Bool.and_eq_true] at hs ⊢
      exact ⟨hs.1, trivial⟩
    have hs2 : noSuccessfulStart rest (step a op).1 = true := by
      simp only [noSuccessfulStart, Bool.and_eq_true] at hs
      exact hs.2
    obtain ⟨h1, h2⟩ := step_stays_idle a op h hs1
    obtain ⟨h3, h4⟩ := ih _ h1 hs2
    refine ⟨h3, ?_⟩
    intro e he
    simp only [run, List.mem_append] at he
    rcases he with he | he
    · exact h2 e he
    · exact h4 e he

/-- The OS shutdown call appears in a call history only once the flag is set:
holds after any sequence of whole calls. -/
lemma run_shutdown_issued (ops : List Op) :
    ∀ a : TCPAcceptor, (∃ e ∈ (run ops a).2, e.isShutdown = true) →
      (run ops a).1.m_shutdown = true := by
  induction ops with
  | nil => intro a h; simp [run] at h
  | cons op rest ih =>
    intro a h
    simp only [run, List.mem_append] at h ⊢
    obtain ⟨e, he | he, hs⟩ := h
    · apply run_shutdown_mono
      cases op with
      | start os =>
        have := start_effects_no_shutdown a os e he
        simp [hs] at this
      | shutdown => simp [step, shutdown_acc]
      | accept os =>
        unfold step accept at he
        simp only at he
        split_ifs at he <;> simp [ERROR] at he <;>
          (first | (rcases he with he | he <;> subst he <;> simp [Effect.isShutdown] at hs)
                 | (subst he; simp [Effect.isShutdown] at hs))
    · exact ih _ ⟨e, he, hs⟩

/-! ## Results -/

/-- C1: on an acceptor that is not listening, when the OS bind call fails,
`start` returns a non-zero result and leaves the acceptor not listening; after
any further calls none of which is a `start` returning 0, no OS accept call has
been issued, and `accept` returns `nullptr` without performing any effect. -/
theorem start_bind_failure_never_accepts (a : TCPAcceptor) (os : StartOS)
    (hnl : a.m_listening = false) (hb : os.bindRet ≠ 0)
    (ops : List Op) (hops : noSuccessfulStart ops (start a os).acc = true)
    (aos : AcceptOS) :
    (start a os).ret ≠ 0 ∧
    (start a os).acc.m_listening = false ∧
    (∀ e ∈ (run ops (start a os).acc).2, e.isAccept = false) ∧
    (accept (run ops (start a os).acc).1 aos).ret = none ∧
    (accept (run ops (start a os).acc).1 aos).effects = [] := by
  have hret : (start a os).ret ≠ 0 := by
    simp [start, hnl, hb]
  have hidle : (start a os).acc.m_listening = false := by
    have := (start_ret_zero_iff a os).not.mp hret
    simpa using this
  obtain ⟨h1, h2⟩ := run_stays_idle ops _ hidle hops
  refine ⟨hret, hidle, h2, ?_, ?_⟩ <;> rw [accept_not_listening _ aos h1]

/-- C1, exercised: a fresh acceptor whose bind fails, followed by a shutdown, an
accept and a second failing start. -/
theorem start_bind_failure_never_accepts_witness :
    acc0.m_listening = false ∧ osBindFails.bindRet ≠ 0 ∧
    noSuccessfulStart [Op.shutdown, Op.accept osAcceptOk, Op.start osListenFails]
      (start acc0 osBindFails).acc = true ∧
    (start acc0 osBindFails).ret ≠ 0 ∧
    (accept (run [Op.shutdown, Op.accept osAcceptOk, Op.start osListenFails]
      (start acc0 osBindFails).acc).1 osAcceptOk).ret = none :=
  have h1 : acc0.m_listening = false := rfl
  have h2 : osBindFails.bindRet ≠ 0 := by decide
  have h3 : noSuccessfulStart [Op.shutdown, Op.accept osAcceptOk, Op.start osListenFails]
      (start acc0 osBindFails).acc = true := by decide
  have h := start_bind_failure_never_accepts acc0 osBindFails h1 h2 _ h3 osAcceptOk
  ⟨h1, h2, h3, h.1, h.2.2.2.1⟩

/-- C2: on a listening acceptor, when the OS accept call returns a negative
descriptor, `accept` returns `nullptr`; it logs exactly one "accept() failed"
error when the shutdown flag is clear and logs nothing when the flag is set. -/
theorem accept_failure_logs_unless_shutdown (a : TCPAcceptor) (os : AcceptOS)
    (hl : a.m_listening = true) (hf : os.sd < 0) :
    (accept a os).ret = none ∧
    ((∃ e ∈ (accept a os).effects, e.isLogError = true) ↔ a.m_shutdown = false) ∧
    (a.m_shutdown = true → (accept a os).effects.filter Effect.isLogError = []) ∧
    (a.m_shutdown = false → (accept a os).effects.filter Effect.isLogError
      = [ERROR ("accept() failed: " ++ os.strerror)]) := by
  cases hs : a.m_shutdown <;>
    simp [accept, hl, hf, hs, ERROR, Effect.isLogError, List.filter]

/-- C2, exercised on a listening acceptor, once with the flag clear and once
with it set. -/
theorem accept_failure_logs_unless_shutdown_witness :
    accListening.m_listening = true ∧ osAcceptFails.sd < 0 ∧
    (accept accListening osAcceptFails).ret = none ∧
    (accept accListening osAcceptFails).effects.filter Effect.isLogError
      = [ERROR ("accept() failed: " ++ osAcceptFails.strerror)] ∧
    (accept accListeningDown osAcceptFails).effects.filter Effect.isLogError = [] :=
  have h1 : accListening.m_listening = true := rfl
  have h2 : osAcceptFails.sd < 0 := by decide
  ⟨h1, h2, (accept_failure_logs_unless_shutdown accListening osAcceptFails h1 h2).1,
    (accept_failure_logs_unless_shutdown accListening osAcceptFails h1 h2).2.2.2 rfl,
    (accept_failure_logs_unless_shutdown accListeningDown osAcceptFails rfl h2).2.2.1 rfl⟩

/-- C3, as stated, fails: after `shutdown` on a fresh acceptor, `start` with
bind and listen succeeding returns 0; and after `shutdown` on a listening
acceptor `start` returns 0 whatever the OS would answer. -/
theorem start_after_shutdown_not_rejected :
    ¬ ((start (shutdown acc0).acc osOk).ret ≠ 0) ∧
    ¬ ((start (shutdown accListening).acc osBindFails).ret ≠ 0) := by
  constructor <;> decide

/-- C3, amended: `start` never consults the shutdown flag.  After `shutdown`,
`start` returns what it returns without it: 0 when the acceptor is already
listening, and otherwise a non-zero result exactly when the OS bind call or the
OS listen call returns non-zero.  The shutdown flag stays set. -/
theorem start_after_shutdown_ignores_flag (a : TCPAcceptor) (os : StartOS) :
    (start (shutdown a).acc os).ret = (start a os).ret ∧
    (a.m_listening = true → (start (shutdown a).acc os).ret = 0) ∧
    (a.m_listening = false →
      ((start (shutdown a).acc os).ret ≠ 0 ↔ (os.bindRet ≠ 0 ∨ os.listenRet ≠ 0))) ∧
    (start (shutdown a).acc os).acc.m_shutdown = true := by
  refine ⟨?_, ?_, ?_, ?_⟩
  · rw [shutdown_acc]; unfold start; split_ifs <;> simp_all
  · intro h; rw [shutdown_acc]; simp [start, h]
  · intro h; rw [shutdown_acc]; unfold start; split_ifs <;> simp_all
  · rw [start_shutdown_flag, shutdown_acc]

/-- C3, amended, exercised on a listening acceptor and on a fresh one whose bind
fails. -/
theorem start_after_shutdown_ignores_flag_witness :
    accListening.m_listening = true ∧
    (start (shutdown accListening).acc osBindFails).ret = 0 ∧
    acc0.m_listening = false ∧ (osBindFails.bindRet ≠ 0 ∨ osBindFails.listenRet ≠ 0) ∧
    (start (shutdown acc0).acc osBindFails).ret ≠ 0 :=
  ⟨rfl, (start_after_shutdown_ignores_flag accListening osBindFails).2.1 rfl,
    rfl, Or.inl (by decide),
    ((start_after_shutdown_ignores_flag acc0 osBindFails).2.2.1 rfl).mpr
      (Or.inl (by decide))⟩

/-- C4: `shutdown` is idempotent.  A second call leaves the acceptor exactly as
the first did (shutdown flag set, listening flag and descriptor as before the
first call) and issues the same OS request, a both-directions shutdown of the
same descriptor. -/
theorem shutdown_idempotent (a : TCPAcceptor) :
    (shutdown (shutdown a).acc).acc = (shutdown a).acc ∧
    (shutdown a).acc.m_shutdown = true ∧
    (shutdown a).acc.m_listening = a.m_listening ∧
    (shutdown a).acc.m_lsd = a.m_lsd ∧
    (shutdown a).effects = [Effect.shutdown a.m_lsd SHUT_RDWR] ∧
    (shutdown (shutdown a).acc).effects = (shutdown a).effects :=
  ⟨rfl, rfl, rfl, rfl, rfl, rfl⟩

/-- C5: `accept` returns a stream exactly when the acceptor is listening and the
OS accept call returns a non-negative descriptor; the stream is then built from
that descriptor and the peer address the OS reported; otherwise `accept`
returns `nullptr`. -/
theorem accept_stream_iff (a : TCPAcceptor) (os : AcceptOS) :
    ((accept a os).ret.isSome = true ↔ (a.m_listening = true ∧ 0 ≤ os.sd)) ∧
    (a.m_listening = true → 0 ≤ os.sd →
      (accept a os).ret = some { sd := os.sd, peer := os.peer }) ∧
    (¬ (a.m_listening = true ∧ 0 ≤ os.sd) → (accept a os).ret = none) := by
  unfold accept
  cases hl : a.m_listening <;> by_cases hsd : os.sd < 0 <;> simp [hsd]
  omega

/-- C5, exercised: a listening acceptor with a good and with a failing OS
accept, and an acceptor that is not listening. -/
theorem accept_stream_iff_witness :
    (accept accListening osAcceptOk).ret = some { sd := 4, peer := ⟨2, 2130706433, 50000⟩ } ∧
    (accept accListening osAcceptFails).ret = none ∧
    (accept acc0 osAcceptOk).ret = none :=
  ⟨(accept_stream_iff accListening osAcceptOk).2.1 rfl (by decide),
    (accept_stream_iff accListening osAcceptFails).2.2 (by decide),
    (accept_stream_iff acc0 osAcceptOk).2.2 (by decide)⟩

/-- C6: on an acceptor that is already listening, `start` returns 0, performs
no effect at all (no socket, bind or listen call) and leaves the object
unchanged; and any listen call issued by any `start` carries the backlog 5. -/
theorem start_once_fixed_backlog (a : TCPAcceptor) (os : StartOS)
    (h : a.m_listening = true) :
    (start a os).ret = 0 ∧ (start a os).effects = [] ∧ (start a os).acc = a ∧
    (∀ (b : TCPAcceptor) (os2 : StartOS) (fd n : Int),
      Effect.listen fd n ∈ (start b os2).effects → n = 5) := by
  rw [start_listening_of_listening a os h]
  refine ⟨rfl, rfl, rfl, ?_⟩
  intro b os2 fd n hm
  unfold start at hm
  by_cases hl : 0 < b.m_address.length <;> split_ifs at hm <;>
    simp [hl, ERROR] at hm <;> exact hm.2

/-- C6, exercised on a listening acceptor, and on the listen call issued by a
first successful start. -/
theorem start_once_fixed_backlog_witness :
    accListening.m_listening = true ∧
    (start accListening osOk).ret = 0 ∧ (start accListening osOk).effects = [] ∧
    (start accListening osOk).acc = accListening ∧
    Effect.listen 3 5 ∈ (start acc0 osOk).effects :=
  have h := start_once_fixed_backlog accListening osOk rfl
  ⟨rfl, h.1, h.2.1, h.2.2.1, by decide⟩

/-- C7: inside `shutdown` the store that sets the shutdown flag precedes the OS
shutdown call.  After the first statement the flag is set and nothing has been
issued yet; after any number of leading statements of the body, run at the end
of any sequence of calls on a freshly constructed acceptor, an OS shutdown call
in the history so far implies that the flag is set. -/
theorem shutdown_flag_before_os_call (a : TCPAcceptor) :
    execStmts (shutdownBody.take 1) a = ({ a with m_shutdown := true }, []) ∧
    (execStmts shutdownBody a).2 = [Effect.shutdown a.m_lsd SHUT_RDWR] ∧
    (∀ (port : Int) (address : String) (ops : List Op) (k : Nat),
      (∃ e ∈ (run ops (TCPAcceptor.new port address)).2 ++
          (execStmts (shutdownBody.take k) (run ops (TCPAcceptor.new port address)).1).2,
        e.isShutdown = true) →
      (execStmts (shutdownBody.take k)
        (run ops (TCPAcceptor.new port address)).1).1.m_shutdown = true) := by
  refine ⟨rfl, rfl, ?_⟩
  intro port address ops k h
  obtain ⟨e, he, hs⟩ := h
  rcases List.mem_append.mp he with he | he
  · have hflag := run_shutdown_issued ops _ ⟨e, he, hs⟩
    match k with
    | 0 => simpa [shutdownBody, execStmts] using hflag
    | 1 => simp [shutdownBody, execStmts, shutdown_setFlag]
    | (n + 2) => simp [shutdownBody, execStmts, shutdown_setFlag, shutdown_osCall]
  · match k with
    | 0 => simp [shutdownBody, execStmts] at he
    | 1 => simp [shutdownBody, execStmts, shutdown_setFlag]
    | (n + 2) => simp [shutdownBody, execStmts, shutdown_setFlag, shutdown_osCall]

/-- C7, exercised: after a successful start, the whole body of `shutdown` has
issued the OS call and the flag is set; after its first statement alone the
flag is set and no OS shutdown call has been issued. -/
theorem shutdown_flag_before_os_call_witness :
    (∃ e ∈ (run [Op.start osOk] (TCPAcceptor.new 1735 "")).2 ++
        (execStmts (shutdownBody.take 2) (run [Op.start osOk] (TCPAcceptor.new 1735 "")).1).2,
      e.isShutdown = true) ∧
    (execStmts (shutdownBody.take 2)
      (run [Op.start osOk] (TCPAcceptor.new 1735 "")).1).1.m_shutdown = true ∧
    execStmts (shutdownBody.take 1) accListening
      = ({ accListening with m_shutdown := true }, []) :=
  have h : ∃ e ∈ (run [Op.start osOk] (TCPAcceptor.new 1735 "")).2 ++
        (execStmts (shutdownBody.take 2) (run [Op.start osOk] (TCPAcceptor.new 1735 "")).1).2,
      e.isShutdown = true := ⟨Effect.shutdown 3 SHUT_RDWR, by decide, rfl⟩
  ⟨h, (shutdown_flag_before_os_call accListening).2.2 1735 "" [Op.start osOk] 2 h,
    (shutdown_flag_before_os_call accListening).1⟩

/-- C8: on an acceptor that is not listening, `start` stops at the first failing
OS call and reports it.  If bind returns non-zero, `start` returns bind's
result, logs exactly one error (the bind one) and issues no listen call.  If
bind returns 0 and listen returns non-zero, `start` returns listen's result,
logs exactly one error (the listen one) and the acceptor stays not listening.
If both return 0, `start` returns 0, logs nothing and the acceptor is
listening. -/
theorem start_reports_first_failure (a : TCPAcceptor) (os : StartOS)
    (h : a.m_listening = false) :
    (os.bindRet ≠ 0 →
      (start a os).ret = os.bindRet ∧
      (start a os).effects.filter Effect.isLogError
        = [ERROR ("bind() failed: " ++ os.strerror)] ∧
      (start a os).effects.filter Effect.isListen = [] ∧
      (start a os).acc.m_listening = false) ∧
    (os.bindRet = 0 → os.listenRet ≠ 0 →
      (start a os).ret = os.listenRet ∧
      (start a os).effects.filter Effect.isLogError
        = [ERROR ("listen() failed: " ++ os.strerror)] ∧
      (start a os).acc.m_listening = false) ∧
    (os.bindRet = 0 → os.listenRet = 0 →
      (start a os).ret = 0 ∧
      (start a os).effects.filter Effect.isLogError = [] ∧
      (start a os).acc.m_listening = true) := by
  refine ⟨?_, ?_, ?_⟩
  · intro hb
    by_cases hl : 0 < a.m_address.length <;>
      simp [start, h, hb, hl, ERROR, List.filter, Effect.isLogError, Effect.isListen]
  · intro hb hli
    by_cases hl : 0 < a.m_address.length <;>
      simp [start, h, hb, hli, hl, ERROR, List.filter, Effect.isLogError]
  · intro hb hli
    by_cases hl : 0 < a.m_address.length <;>
      simp [start, h, hb, hli, hl, List.filter, Effect.isLogError]

/-- C8, exercised on a fresh acceptor with bind failing, with listen failing and
with both succeeding. -/
theorem start_reports_first_failure_witness :
    acc0.m_listening = false ∧
    ((start acc0 osBindFails).ret = -1 ∧
      (start acc0 osBindFails).effects.filter Effect.isLogError
        = [ERROR "bind() failed: Address already in use"] ∧
      (start acc0 osBindFails).effects.filter Effect.isListen = [] ∧
      (start acc0 osBindFails).acc.m_listening = false) ∧
    ((start acc0 osListenFails).ret = -1 ∧
      (start acc0 osListenFails).effects.filter Effect.isLogError
        = [ERROR "listen() failed: Operation not supported"] ∧
      (start acc0 osListenFails).acc.m_listening = false) ∧
    ((start acc0 osOk).ret = 0 ∧
      (start acc0 osOk).effects.filter Effect.isLogError = [] ∧
      (start acc0 osOk).acc.m_listening = true) :=
  ⟨rfl, (start_reports_first_failure acc0 osBindFails rfl).1 (by decide),
    (start_reports_first_failure acc0 osListenFails rfl).2.1 rfl (by decide),
    (start_reports_first_failure acc0 osOk rfl).2.2 rfl rfl⟩

/-- C9: in every state and for every outcome of the OS calls, `start` returns 0
exactly when the acceptor is listening after the call. -/
theorem start_zero_iff_listening_after (a : TCPAcceptor) (os : StartOS) :
    (start a os).ret = 0 ↔ (start a os).acc.m_listening = true :=
  start_ret_zero_iff a os

/-- C10: along any sequence of start, shutdown and accept calls on a freshly
constructed acceptor (both flags clear), the listening flag and the shutdown
flag never go back from true to false; `accept` leaves the object unchanged;
`shutdown` leaves the listening flag as it was, so that `accept` on a listening
acceptor after `shutdown` still issues the OS accept call. -/
theorem flags_monotone (port : Int) (address : String) (ops more : List Op) :
    (TCPAcceptor.new port address).m_listening = false ∧
    (TCPAcceptor.new port address).m_shutdown = false ∧
    ((run ops (TCPAcceptor.new port address)).1.m_listening = true →
      (run more (run ops (TCPAcceptor.new port address)).1).1.m_listening = true) ∧
    ((run ops (TCPAcceptor.new port address)).1.m_shutdown = true →
      (run more (run ops (TCPAcceptor.new port address)).1).1.m_shutdown = true) ∧
    (∀ os : AcceptOS, (accept (run ops (TCPAcceptor.new port address)).1 os).acc
      = (run ops (TCPAcceptor.new port address)).1) ∧
    ((shutdown (run ops (TCPAcceptor.new port address)).1).acc.m_listening
      = (run ops (TCPAcceptor.new port address)).1.m_listening) ∧
    ((run ops (TCPAcceptor.new port address)).1.m_listening = true →
      ∀ os : AcceptOS,
        Effect.accept (run ops (TCPAcceptor.new port address)).1.m_lsd
          ∈ (accept (shutdown (run ops (TCPAcceptor.new port address)).1).acc os).effects) := by
  refine ⟨rfl, rfl, run_listening_mono more _, run_shutdown_mono more _,
    fun os => accept_acc _ os, rfl, ?_⟩
  intro h os
  rw [shutdown_acc]
  unfold accept
  by_cases hsd : os.sd < 0 <;> simp [h, hsd]

/-- C10, exercised: start succeeds, then shutdown, a failing accept and another
start; both flags are still set and the OS accept call is still issued. -/
theorem flags_monotone_witness :
    (run [Op.start osOk, Op.shutdown] (TCPAcceptor.new 1735 "")).1.m_listening = true ∧
    (run [Op.start osOk, Op.shutdown] (TCPAcceptor.new 1735 "")).1.m_shutdown = true ∧
    (run [Op.accept osAcceptFails, Op.start osBindFails]
      (run [Op.start osOk, Op.shutdown] (TCPAcceptor.new 1735 "")).1).1.m_listening = true ∧
    (run [Op.accept osAcceptFails, Op.start osBindFails]
      (run [Op.start osOk, Op.shutdown] (TCPAcceptor.new 1735 "")).1).1.m_shutdown = true ∧
    Effect.accept 3 ∈ (accept (shutdown
      (run [Op.start osOk, Op.shutdown] (TCPAcceptor.new 1735 "")).1).acc osAcceptOk).effects :=
  have h := flags_monotone 1735 "" [Op.start osOk, Op.shutdown]
    [Op.accept osAcceptFails, Op.start osBindFails]
  ⟨rfl, rfl, h.2.2.1 rfl, h.2.2.2.1 rfl, h.2.2.2.2.2.2 rfl osAcceptOk⟩

end tcpsockets
